import Mathlib

/-!
Verification of the scroll animation engine, strategy layer and controller
of the obsidian-stomp plugin, embedded from src/src/engine.ts,
src/src/scroller.ts and the controller (src/src/controller.ts together
with src/unnamed/part_011, whose executeScroll bodies share the same
throw/catch structure).

Modelling choices, all taken from the source:

* A scrollable surface is a rational scroll offset together with the
  maximum offset its content allows.  Assigning element.scrollTop in the
  DOM saturates the stored value into the range 0 .. maxScroll; this
  saturation is exactly what the engine relies on to detect content
  boundaries (an offset that does not change after a write).

* The engine state mirrors the fields of class ScrollEngine: the active
  element, the current animation timer id and the easing settings.  The
  surrounding world also models the timer queue of the JavaScript event
  loop as a list of pending timer ids plus a fresh-id counter: setTimeout
  appends a fresh id and returns it, clearTimeout removes an id.  A timer
  whose id was removed never fires, so the suspension of a session whose
  timer was cleared can never complete through its own termination logic.
  The world also counts scrollTop writes performed through the engine.

* Each animation primitive is embedded as its synchronous prologue
  (everything the call runs up to scheduling the first frame timer, or up
  to returning / throwing), and each frame callback as an explicit step
  function on a loop state.  Promise resolution is a .finished step
  result; the loops have no rejecting exit, matching the source where
  finalize always calls resolve.  A thrown error is an Except.error; for
  primitives that mutate state before throwing, the returned world is the
  state at the moment of the throw.

* Numbers are rationals.  Math.ceil is the integer ceiling, Math.max and
  Math.min are max and min, Math.abs is the absolute value.  The in-loop
  callbacks always run with the element the session started on, matching
  executions in which the binding is not removed mid-flight; the engine
  claims below only concern such executions or the synchronous prologues.
-/

/-- A scrollable surface: the current vertical offset and the largest
offset the content allows (scrollHeight - clientHeight). -/
@[ext]
structure Surface where
  scrollTop : ℚ
  maxScroll : ℚ
deriving DecidableEq

/-- Semantics of assigning element.scrollTop: the DOM saturates the
assigned value at the content limits. -/
def domSet (s : Surface) (v : ℚ) : Surface :=
  { scrollTop := max 0 (min v s.maxScroll), maxScroll := s.maxScroll }

/-- The offset write performed by ScrollEngine.directScroll on a bound
element (engine.ts lines 131-136): it assigns
Math.ceil(Math.max(targetTop, 0)) to scrollTop, and the DOM clamps the
stored value. -/
def directScrollWrite (s : Surface) (targetTop : ℚ) : Surface :=
  domSet s ((⌈max targetTop 0⌉ : ℤ) : ℚ)

theorem directScrollWrite_maxScroll (s : Surface) (t : ℚ) :
    (directScrollWrite s t).maxScroll = s.maxScroll := rfl

theorem directScrollWrite_scrollTop (s : Surface) (t : ℚ) :
    (directScrollWrite s t).scrollTop
      = max 0 (min ((⌈max t 0⌉ : ℤ) : ℚ) s.maxScroll) := rfl

/-- The easing settings held by the engine (interface EngineSettings:
easeInFactor and easeOutFactor). -/
structure EngineSettings where
  easeInFactor : ℚ
  easeOutFactor : ℚ
deriving DecidableEq

/-- The mutable fields of class ScrollEngine (engine.ts lines 62-69). -/
structure EngineState where
  activeElement : Option Surface
  animationId : Option ℕ
  settings : EngineSettings
deriving DecidableEq

/-- The engine together with the timer queue of the event loop: the ids
of timers that are scheduled and have not fired or been cleared, a
fresh-id counter, and a count of scrollTop writes made via the engine. -/
structure World where
  engine : EngineState
  pending : List ℕ
  nextId : ℕ
  writes : ℕ
deriving DecidableEq

/-- setTimeout: schedules a fresh timer and returns its id. -/
def setTimeout (w : World) : ℕ × World :=
  (w.nextId, { w with pending := w.pending ++ [w.nextId], nextId := w.nextId + 1 })

/-- clearTimeout: removes a timer from the pending queue; it will never
fire. -/
def clearTimeout (w : World) (t : ℕ) : World :=
  { w with pending := w.pending.filter (fun i => i != t) }

/-- ScrollEngine.isActive (engine.ts lines 71-73): a surface is bound and
an animation timer is current. -/
def isActive (e : EngineState) : Bool :=
  e.activeElement.isSome && e.animationId.isSome

/-- ScrollEngine.activate (engine.ts lines 85-94): if an element is
already active it is first deactivated (which only clears the reference),
then the new element is stored; the net effect on the state is storing
the new reference. -/
def activate (w : World) (el : Surface) : World :=
  { w with engine := { w.engine with activeElement := some el } }

/-- ScrollEngine.deactivate (engine.ts lines 99-110): clears the active
element reference if one is set; touches nothing else. -/
def deactivate (w : World) : World :=
  match w.engine.activeElement with
  | none => w
  | some _ => { w with engine := { w.engine with activeElement := none } }

/-- ScrollEngine.stopAnimation (engine.ts lines 115-121): if a timer id
is current, clear that timer and null the id field. -/
def stopAnimation (w : World) : World :=
  match w.engine.animationId with
  | none => w
  | some t =>
      { clearTimeout w t with engine := { w.engine with animationId := none } }

/-- Errors a primitive can signal: the explicit precondition throw
(new Error with message No active element), and the TypeError raised by
reading scrollTop of a null activeElement (which rejects the promise of
animatedScroll). -/
inductive EngineError where
  | noActiveElement
  | nullAccess
deriving DecidableEq

/-- What an animation primitive has done by the end of its synchronous
prologue: either it already performed a direct jump and its promise
resolves immediately, or it scheduled the first frame timer of a new
animation session. -/
inductive StartKind where
  | direct
  | linearSession (startPos pixelsPerFrame : ℚ) (totalFrames : ℕ) (timerId : ℕ)
  | easedSession (startPos targetPos : ℚ) (totalFrames : ℕ) (timerId : ℕ)
deriving DecidableEq

/-- ScrollEngine.directScroll (engine.ts lines 126-147): throws if no
element is active, otherwise writes the clamped ceiling of the target. -/
def directScroll (w : World) (targetTop : ℚ) : World × Except EngineError Unit :=
  match w.engine.activeElement with
  | none => (w, .error .noActiveElement)
  | some el =>
      ({ w with
          engine := { w.engine with activeElement := some (directScrollWrite el targetTop) },
          writes := w.writes + 1 },
        .ok ())

/-- Prologue of ScrollEngine.animatedScroll (engine.ts lines 152-203):
it does NOT call stopAnimation; the promise executor reads
activeElement.scrollTop (a TypeError rejecting the promise when the
element is null) and schedules the first frame timer, overwriting the
animationId field. -/
def animatedScroll (w : World) (frameInterval pixelsPerFrame : ℚ) (totalFrames : ℕ) :
    World × Except EngineError StartKind :=
  match w.engine.activeElement with
  | none => (w, .error .nullAccess)
  | some el =>
      let idw := setTimeout w
      ({ idw.2 with engine := { idw.2.engine with animationId := some idw.1 } },
        .ok (.linearSession el.scrollTop pixelsPerFrame totalFrames idw.1))

/-- Prologue of ScrollEngine.smoothScrollTo (engine.ts lines 275-309):
stopAnimation first, then the precondition throw, then either the direct
short-circuit (duration at most one frame interval, or distance at most
the 5 pixel threshold) or the start of an eased session whose first
frame timer is scheduled by the easedAnimatedScroll executor
(engine.ts lines 208-269). -/
def smoothScrollTo (w : World) (targetTop durationMs : ℚ) :
    World × Except EngineError StartKind :=
  let w1 := stopAnimation w
  match w1.engine.activeElement with
  | none => (w1, .error .noActiveElement)
  | some el =>
      let frameInterval : ℚ := 1000 / 60
      let startTop := el.scrollTop
      let clampedTop := max targetTop 0
      let distance := |clampedTop - startTop|
      if durationMs ≤ frameInterval ∨ distance ≤ 5 then
        ({ w1 with
            engine := { w1.engine with activeElement := some (directScrollWrite el clampedTop) },
            writes := w1.writes + 1 },
          .ok .direct)
      else
        let totalFrames := (⌈durationMs / frameInterval⌉).toNat
        let idw := setTimeout w1
        ({ idw.2 with engine := { idw.2.engine with animationId := some idw.1 } },
          .ok (.easedSession startTop clampedTop totalFrames idw.1))

/-- ScrollDirection (engine.ts lines 6-9): UP = -1, DOWN = 1. -/
inductive ScrollDirection where
  | up
  | down
deriving DecidableEq

def ScrollDirection.toInt : ScrollDirection → ℤ
  | .up => -1
  | .down => 1

/-- Prologue of ScrollEngine.continuousScroll (engine.ts lines 314-330):
stopAnimation, precondition throw, then delegates to animatedScroll with
totalFrames = 0 and the per-frame pixel amount derived from the speed. -/
def continuousScroll (w : World) (direction : ScrollDirection) (pixelsPerSecond : ℚ) :
    World × Except EngineError StartKind :=
  let w1 := stopAnimation w
  match w1.engine.activeElement with
  | none => (w1, .error .noActiveElement)
  | some _ =>
      let frameInterval : ℚ := 1000 / 60
      let pixelsPerFrame := pixelsPerSecond * frameInterval / 1000 * (direction.toInt : ℚ)
      animatedScroll w1 frameInterval pixelsPerFrame 0

/-- Why a frame loop ended: a detected content boundary (the offset did
not change over a write) or frame-count completion.  Both call resolve in
the source; there is no rejecting exit from a running loop. -/
inductive FinishReason where
  | stopped
  | completed
deriving DecidableEq

/-- Result of running one or more frame callbacks: the loop resolved with
a final surface, or it rescheduled itself with a new loop state. -/
inductive StepOut (α : Type) where
  | finished (surf : Surface) (reason : FinishReason)
  | running (st : α)
deriving DecidableEq

/-- Loop state of the animatedScroll frame callback: the bound surface,
the currentPosition accumulator and the framesProcessed counter
(engine.ts lines 157-201). -/
structure LinState where
  surf : Surface
  currentPosition : ℚ
  framesProcessed : ℕ
deriving DecidableEq

/-- One frame callback of animatedScroll (engine.ts lines 172-199):
advance currentPosition by pixelsPerFrame, write it via directScroll,
resolve if the offset did not change (document limit), otherwise count
the frame and resolve when totalFrames > 0 frames are all processed. -/
def linStep (pixelsPerFrame : ℚ) (totalFrames : ℕ) (st : LinState) : StepOut LinState :=
  let previousPosition := st.surf.scrollTop
  let nextPosition := st.currentPosition + pixelsPerFrame
  let surf1 := directScrollWrite st.surf nextPosition
  if surf1.scrollTop = previousPosition then
    .finished surf1 .stopped
  else if 0 < totalFrames ∧ totalFrames ≤ st.framesProcessed + 1 then
    .finished surf1 .completed
  else
    .running { surf := surf1, currentPosition := nextPosition,
               framesProcessed := st.framesProcessed + 1 }

/-- Parameters of an easedAnimatedScroll session (engine.ts lines
208-214); the easing function is the argument built by smoothScrollTo. -/
structure EasedParams where
  startPosition : ℚ
  targetPosition : ℚ
  totalFrames : ℕ
  easing : ℚ → ℚ

/-- Loop state of the easedAnimatedScroll frame callback. -/
structure EasedState where
  surf : Surface
  framesProcessed : ℕ
deriving DecidableEq

/-- The position computed by frame number k of easedAnimatedScroll
(engine.ts lines 233-240): progress = min(k / totalFrames, 1), position =
startPosition + (targetPosition - startPosition) * easing(progress). -/
def easedPos (p : EasedParams) (k : ℕ) : ℚ :=
  p.startPosition
    + (p.targetPosition - p.startPosition)
        * p.easing (min ((k : ℚ) / (p.totalFrames : ℚ)) 1)

/-- One frame callback of easedAnimatedScroll (engine.ts lines 230-266):
write the eased position; resolve on an unchanged offset only when
framesProcessed > 2; otherwise count the frame, and on reaching
totalFrames force a final directScroll to the target and resolve. -/
def easedStep (p : EasedParams) (st : EasedState) : StepOut EasedState :=
  let previousPosition := st.surf.scrollTop
  let surf1 := directScrollWrite st.surf (easedPos p st.framesProcessed)
  if surf1.scrollTop = previousPosition ∧ 2 < st.framesProcessed then
    .finished surf1 .stopped
  else if p.totalFrames ≤ st.framesProcessed + 1 then
    .finished (directScrollWrite surf1 p.targetPosition) .completed
  else
    .running { surf := surf1, framesProcessed := st.framesProcessed + 1 }

/-- Run up to the given number of eased frame callbacks. -/
def easedRun (p : EasedParams) : EasedState → ℕ → StepOut EasedState
  | st, 0 => .running st
  | st, fuel + 1 =>
      match easedStep p st with
      | .finished s r => .finished s r
      | .running st' => easedRun p st' fuel

/-- A scroll strategy as the controller sees it: given the resolved
element and the current world, it either completes or throws. -/
abbrev StratFun := Surface → World → World × Except String Unit

/-- Outcome of a controller call: the final world, how many user-visible
notices were emitted, and the error thrown to the caller, if any. -/
structure ControllerOutcome where
  world : World
  notices : ℕ
  thrown : Option String
deriving DecidableEq

/-- ScrollController.executeScroll (src/unnamed/part_011 lines 179-193;
src/src/controller.ts lines 131-141 has the same throw and catch
structure without the activate and deactivate calls): a null resolver
result throws BEFORE the try block; only errors thrown by the strategy
are caught and turned into one notice. -/
def executeScroll (w : World) (resolver : Option Surface) (strat : StratFun) :
    ControllerOutcome :=
  match resolver with
  | none => { world := w, notices := 0, thrown := some "No scrollable element found" }
  | some el =>
      let w1 := activate w el
      match strat el w1 with
      | (w2, .error _) => { world := deactivate w2, notices := 1, thrown := none }
      | (w2, .ok _) => { world := deactivate w2, notices := 0, thrown := none }

/-- ScrollController.executeCommand (src/unnamed/part_011 lines 165-174):
unknown command ids are logged and ignored; for a registered id, the call
awaits executeScroll with no try/catch of its own. -/
def executeCommand (registry : String → Option StratFun) (w : World)
    (commandId : String) (resolver : Option Surface) : ControllerOutcome :=
  match registry commandId with
  | some strat => executeScroll w resolver strat
  | none => { world := w, notices := 0, thrown := none }

/-- ScrollToggler.execute (src/src/scroller.ts lines 615-640): when the
engine isActive, stop the animation; otherwise run the wrapped strategy.
The Bool records whether the wrapped strategy was invoked. -/
def togglerExecute (w : World) (el : Surface) (wrapped : Surface → World → World) :
    Bool × World :=
  if isActive w.engine then (false, stopAnimation w) else (true, wrapped el w)

/-- EasingFunctions.easeIn (engine.ts lines 30-33). -/
noncomputable def easeIn (t factor : ℝ) : ℝ :=
  if factor ≤ 0 then t else t ^ (1 + factor * 2)

/-- EasingFunctions.easeOut (engine.ts lines 38-41). -/
noncomputable def easeOut (t factor : ℝ) : ℝ :=
  if factor ≤ 0 then t else 1 - (1 - t) ^ (1 + factor * 2)

/-- EasingFunctions.easeInOut (engine.ts lines 46-56); the source writes
the midpoint as 0.5. -/
noncomputable def easeInOut (t easeInFactor easeOutFactor : ℝ) : ℝ :=
  if easeInFactor ≤ 0 ∧ easeOutFactor ≤ 0 then t
  else if t < 1 / 2 then (1 / 2) * easeIn (t * 2) easeInFactor
  else 1 / 2 + (1 / 2) * easeOut ((t - 1 / 2) * 2) easeOutFactor

/-- Modelled from the spec: the combined easing formula as the spec
states it, for comparison with easeInOut: for t < 0.5 an ease-in curve of
sharpness fIn applied to 2t and halved, otherwise an ease-out curve of
sharpness fOut applied to 2(t - 0.5), halved, plus 0.5. -/
noncomputable def specCombinedEase (t fIn fOut : ℝ) : ℝ :=
  if t < 1 / 2 then (1 / 2) * (2 * t) ^ (1 + 2 * fIn)
  else 1 / 2 + (1 / 2) * (1 - (1 - 2 * (t - 1 / 2)) ^ (1 + 2 * fOut))

theorem stopAnimation_activeElement (w : World) :
    (stopAnimation w).engine.activeElement = w.engine.activeElement := by
  cases h : w.engine.animationId <;> simp [stopAnimation, h, clearTimeout]

theorem stopAnimation_animationId (w : World) :
    (stopAnimation w).engine.animationId = none := by
  cases h : w.engine.animationId <;> simp [stopAnimation, h, clearTimeout]

theorem stopAnimation_nextId (w : World) :
    (stopAnimation w).nextId = w.nextId := by
  cases h : w.engine.animationId <;> simp [stopAnimation, h, clearTimeout]

theorem stopAnimation_writes (w : World) :
    (stopAnimation w).writes = w.writes := by
  cases h : w.engine.animationId <;> simp [stopAnimation, h, clearTimeout]

/-- C10: deactivate clears only the active-surface reference: the
animation-timer field and the pending timer queue are unchanged, so a
pending frame callback of an in-flight animation still fires after
deactivation, while isActive becomes false; cancelling the timer requires
a separate stopAnimation call, which nulls the id and removes the timer
from the queue. -/
theorem c10_deactivate_preserves_timer (w : World) (t : ℕ)
    (hId : w.engine.animationId = some t) (hP : t ∈ w.pending) :
    (deactivate w).engine.animationId = w.engine.animationId
  ∧ (deactivate w).pending = w.pending
  ∧ isActive (deactivate w).engine = false
  ∧ t ∈ (deactivate w).pending
  ∧ (stopAnimation (deactivate w)).engine.animationId = none
  ∧ t ∉ (stopAnimation (deactivate w)).pending := by
  obtain ⟨⟨ae, aid, es⟩, pend, nid, wr⟩ := w
  dsimp only at hId hP
  subst hId
  cases ae <;>
    simp [deactivate, stopAnimation, clearTimeout, isActive, List.mem_filter, hP]

/-- Witness for C10 at a concrete world: an in-flight session whose
surface was deactivated keeps its live timer. -/
theorem c10_witness :
    (deactivate ⟨⟨some ⟨4, 9⟩, some 7, ⟨1, 1⟩⟩, [7], 8, 0⟩).engine.animationId
        = (⟨⟨some ⟨4, 9⟩, some 7, ⟨1, 1⟩⟩, [7], 8, 0⟩ : World).engine.animationId
  ∧ (deactivate ⟨⟨some ⟨4, 9⟩, some 7, ⟨1, 1⟩⟩, [7], 8, 0⟩).pending
        = (⟨⟨some ⟨4, 9⟩, some 7, ⟨1, 1⟩⟩, [7], 8, 0⟩ : World).pending
  ∧ isActive (deactivate ⟨⟨some ⟨4, 9⟩, some 7, ⟨1, 1⟩⟩, [7], 8, 0⟩).engine = false
  ∧ 7 ∈ (deactivate ⟨⟨some ⟨4, 9⟩, some 7, ⟨1, 1⟩⟩, [7], 8, 0⟩).pending
  ∧ (stopAnimation (deactivate ⟨⟨some ⟨4, 9⟩, some 7, ⟨1, 1⟩⟩, [7], 8, 0⟩)).engine.animationId
        = none
  ∧ 7 ∉ (stopAnimation (deactivate ⟨⟨some ⟨4, 9⟩, some 7, ⟨1, 1⟩⟩, [7], 8, 0⟩)).pending :=
  c10_deactivate_preserves_timer ⟨⟨some ⟨4, 9⟩, some 7, ⟨1, 1⟩⟩, [7], 8, 0⟩ 7
    (by with_unfolding_all decide) (by with_unfolding_all decide)

/-- C9: ScrollToggler.execute runs the wrapped strategy exactly when the
engine is not active, and otherwise only stops the animation. -/
theorem c9_toggle_semantics (w : World) (el : Surface)
    (wrapped : Surface → World → World) :
    (isActive w.engine = false → togglerExecute w el wrapped = (true, wrapped el w))
  ∧ (isActive w.engine = true → togglerExecute w el wrapped = (false, stopAnimation w)) := by
  by_cases h : isActive w.engine = true <;> simp [togglerExecute, h]

/-- Witness for C9 at a concrete inactive engine and a concrete wrapped
strategy: the wrapped strategy runs. -/
theorem c9_witness :
    togglerExecute ⟨⟨some ⟨4, 9⟩, none, ⟨1, 1⟩⟩, [], 0, 0⟩ ⟨4, 9⟩ (fun _ v => v)
      = (true, ⟨⟨some ⟨4, 9⟩, none, ⟨1, 1⟩⟩, [], 0, 0⟩) :=
  (c9_toggle_semantics ⟨⟨some ⟨4, 9⟩, none, ⟨1, 1⟩⟩, [], 0, 0⟩ ⟨4, 9⟩ (fun _ v => v)).1
    (by with_unfolding_all decide)

/-- C2 (amended): calling a scroll primitive with no active surface
signals an error that is fatal to that call, the active-surface reference
stays none and the engine remains usable; directScroll and animatedScroll
leave the whole state unchanged, while smoothScrollTo and continuousScroll
first run stopAnimation and so may clear a stale animation timer before
the throw; when no stale timer exists the state is fully unchanged for
all four primitives. -/
theorem c2_inactive_precondition_error (w : World) (target fi ppf dur pps : ℚ)
    (tf : ℕ) (dir : ScrollDirection) (h : w.engine.activeElement = none) :
    directScroll w target = (w, .error .noActiveElement)
  ∧ animatedScroll w fi ppf tf = (w, .error .nullAccess)
  ∧ smoothScrollTo w target dur = (stopAnimation w, .error .noActiveElement)
  ∧ continuousScroll w dir pps = (stopAnimation w, .error .noActiveElement)
  ∧ (stopAnimation w).engine.activeElement = none
  ∧ (w.engine.animationId = none → stopAnimation w = w) := by
  obtain ⟨⟨ae, aid, es⟩, pend, nid, wr⟩ := w
  dsimp only at h
  subst h
  cases aid <;>
    simp [directScroll, animatedScroll, smoothScrollTo, continuousScroll,
      stopAnimation, clearTimeout]

/-- Witness for C2 at a concrete inactive world with no stale timer. -/
theorem c2_witness :
    directScroll ⟨⟨none, none, ⟨1, 1⟩⟩, [], 0, 0⟩ 100
        = (⟨⟨none, none, ⟨1, 1⟩⟩, [], 0, 0⟩, .error .noActiveElement)
  ∧ animatedScroll ⟨⟨none, none, ⟨1, 1⟩⟩, [], 0, 0⟩ (1000 / 60) 2 0
        = (⟨⟨none, none, ⟨1, 1⟩⟩, [], 0, 0⟩, .error .nullAccess)
  ∧ smoothScrollTo ⟨⟨none, none, ⟨1, 1⟩⟩, [], 0, 0⟩ 100 1000
        = (stopAnimation ⟨⟨none, none, ⟨1, 1⟩⟩, [], 0, 0⟩, .error .noActiveElement)
  ∧ continuousScroll ⟨⟨none, none, ⟨1, 1⟩⟩, [], 0, 0⟩ .down 100
        = (stopAnimation ⟨⟨none, none, ⟨1, 1⟩⟩, [], 0, 0⟩, .error .noActiveElement)
  ∧ (stopAnimation ⟨⟨none, none, ⟨1, 1⟩⟩, [], 0, 0⟩).engine.activeElement = none
  ∧ ((⟨⟨none, none, ⟨1, 1⟩⟩, [], 0, 0⟩ : World).engine.animationId = none →
      stopAnimation ⟨⟨none, none, ⟨1, 1⟩⟩, [], 0, 0⟩ = ⟨⟨none, none, ⟨1, 1⟩⟩, [], 0, 0⟩) :=
  c2_inactive_precondition_error ⟨⟨none, none, ⟨1, 1⟩⟩, [], 0, 0⟩ 100 (1000 / 60) 2 1000 100 0
    .down rfl

/-- Counterexample for C2 as stated: with no active surface but a stale
live timer (reachable by activate, continuousScroll, deactivate),
smoothScrollTo signals the precondition error yet does NOT leave the
engine state unchanged: the stale timer id is cleared first. -/
theorem c2_counterexample :
    (smoothScrollTo ⟨⟨none, some 0, ⟨1, 1⟩⟩, [0], 1, 0⟩ 100 1000).1
        ≠ (⟨⟨none, some 0, ⟨1, 1⟩⟩, [0], 1, 0⟩ : World)
  ∧ (smoothScrollTo ⟨⟨none, some 0, ⟨1, 1⟩⟩, [0], 1, 0⟩ 100 1000).1.engine.animationId = none
  ∧ (smoothScrollTo ⟨⟨none, some 0, ⟨1, 1⟩⟩, [0], 1, 0⟩ 100 1000).1.pending = [] := by
  with_unfolding_all decide

/-- C4 (amended): with an active surface, directScroll succeeds and
immediately sets the offset to Math.ceil(max(targetOffset, 0)), saturated
by the surface at its maximum scroll extent — not to max(targetOffset, 0)
itself, which the rounding can exceed; for every negative target the
resulting offset is exactly 0. -/
theorem c4_directScroll_clamps (w : World) (el : Surface) (target : ℚ)
    (hEl : w.engine.activeElement = some el) (hMax : 0 ≤ el.maxScroll) :
    (directScroll w target).2 = .ok ()
  ∧ (directScroll w target).1.engine.activeElement = some (directScrollWrite el target)
  ∧ (directScroll w target).1.writes = w.writes + 1
  ∧ (directScrollWrite el target).scrollTop
      = max 0 (min ((⌈max target 0⌉ : ℤ) : ℚ) el.maxScroll)
  ∧ (target < 0 → (directScrollWrite el target).scrollTop = 0) := by
  refine ⟨by simp [directScroll, hEl], by simp [directScroll, hEl],
    by simp [directScroll, hEl], directScrollWrite_scrollTop el target, ?_⟩
  intro hneg
  rw [directScrollWrite_scrollTop, max_eq_right hneg.le]
  simp [min_eq_left hMax]

/-- Witness for C4 at a concrete world and a negative target. -/
theorem c4_witness :
    (directScroll ⟨⟨some ⟨5, 100⟩, none, ⟨1, 1⟩⟩, [], 0, 0⟩ (-3)).2 = .ok ()
  ∧ (directScroll ⟨⟨some ⟨5, 100⟩, none, ⟨1, 1⟩⟩, [], 0, 0⟩ (-3)).1.engine.activeElement
      = some (directScrollWrite ⟨5, 100⟩ (-3))
  ∧ (directScroll ⟨⟨some ⟨5, 100⟩, none, ⟨1, 1⟩⟩, [], 0, 0⟩ (-3)).1.writes
      = (⟨⟨some ⟨5, 100⟩, none, ⟨1, 1⟩⟩, [], 0, 0⟩ : World).writes + 1
  ∧ (directScrollWrite ⟨5, 100⟩ (-3)).scrollTop
      = max 0 (min ((⌈max (-3 : ℚ) 0⌉ : ℤ) : ℚ) (Surface.mk 5 100).maxScroll)
  ∧ ((-3 : ℚ) < 0 → (directScrollWrite ⟨5, 100⟩ (-3)).scrollTop = 0) :=
  c4_directScroll_clamps ⟨⟨some ⟨5, 100⟩, none, ⟨1, 1⟩⟩, [], 0, 0⟩ ⟨5, 100⟩ (-3) rfl
    (by with_unfolding_all decide)

/-- Counterexample for C4 as stated: directScroll(1/2) on a surface at
offset 5 stores 1 (the ceiling), not max(1/2, 0) = 1/2. -/
theorem c4_counterexample :
    (directScroll ⟨⟨some ⟨5, 100⟩, none, ⟨1, 1⟩⟩, [], 0, 0⟩ (1 / 2)).1.engine.activeElement
        = some ⟨1, 100⟩
  ∧ ((1 : ℚ) ≠ max (1 / 2) 0) := by
  with_unfolding_all decide

/-- C5: smoothScrollTo with a duration under one frame interval, or with
a clamped-target distance of at most 5 pixels, short-circuits to a single
direct jump: the call returns the direct result (so its suspension
resolves immediately), performs exactly one offset write, schedules no
timer (the fresh-id counter is untouched and no animation id is set), and
stores the direct jump to the clamped target on the surface. -/
theorem c5_smoothScrollTo_short_circuit (w : World) (el : Surface) (target dur : ℚ)
    (hEl : w.engine.activeElement = some el)
    (hCond : dur < 1000 / 60 ∨ |max target 0 - el.scrollTop| ≤ 5) :
    (smoothScrollTo w target dur).2 = .ok .direct
  ∧ (smoothScrollTo w target dur).1.writes = w.writes + 1
  ∧ (smoothScrollTo w target dur).1.nextId = w.nextId
  ∧ (smoothScrollTo w target dur).1.engine.animationId = none
  ∧ (smoothScrollTo w target dur).1.engine.activeElement
      = some (directScrollWrite el (max target 0)) := by
  obtain ⟨⟨ae, aid, es⟩, pend, nid, wr⟩ := w
  dsimp only at hEl
  subst hEl
  have hc : dur ≤ 1000 / 60 ∨ |max target 0 - el.scrollTop| ≤ 5 :=
    hCond.imp_left le_of_lt
  cases aid <;>
    simp [smoothScrollTo, stopAnimation, clearTimeout, hc]

/-- Witness for C5 at a concrete world: a 3 pixel distance falls under
the 5 pixel threshold. -/
theorem c5_witness :
    (smoothScrollTo ⟨⟨some ⟨0, 1000⟩, none, ⟨1, 1⟩⟩, [], 0, 0⟩ 3 1000).2 = .ok .direct
  ∧ (smoothScrollTo ⟨⟨some ⟨0, 1000⟩, none, ⟨1, 1⟩⟩, [], 0, 0⟩ 3 1000).1.writes
      = (⟨⟨some ⟨0, 1000⟩, none, ⟨1, 1⟩⟩, [], 0, 0⟩ : World).writes + 1
  ∧ (smoothScrollTo ⟨⟨some ⟨0, 1000⟩, none, ⟨1, 1⟩⟩, [], 0, 0⟩ 3 1000).1.nextId
      = (⟨⟨some ⟨0, 1000⟩, none, ⟨1, 1⟩⟩, [], 0, 0⟩ : World).nextId
  ∧ (smoothScrollTo ⟨⟨some ⟨0, 1000⟩, none, ⟨1, 1⟩⟩, [], 0, 0⟩ 3 1000).1.engine.animationId
      = none
  ∧ (smoothScrollTo ⟨⟨some ⟨0, 1000⟩, none, ⟨1, 1⟩⟩, [], 0, 0⟩ 3 1000).1.engine.activeElement
      = some (directScrollWrite ⟨0, 1000⟩ (max 3 0)) :=
  c5_smoothScrollTo_short_circuit ⟨⟨some ⟨0, 1000⟩, none, ⟨1, 1⟩⟩, [], 0, 0⟩ ⟨0, 1000⟩ 3 1000
    rfl (by with_unfolding_all decide)

/-- C1 (amended): smoothScrollTo (on its animation path) and
continuousScroll first cancel an existing animation session: from a state
whose only live timer is the current session timer t, immediately after
either primitive starts, the engine holds exactly one live timer — the
newly scheduled one — the animation id points at it, and t is no longer
pending, so the superseded session can never complete through its own
termination logic.  ScrollEngine.animatedScroll does not itself cancel
(see the counterexample); its only in-repo caller continuousScroll cancels
before delegating. -/
theorem c1_start_cancels_previous (w : World) (el : Surface) (t : ℕ)
    (target dur pps : ℚ) (dir : ScrollDirection)
    (hEl : w.engine.activeElement = some el) (hId : w.engine.animationId = some t)
    (hP : w.pending = [t]) (hFresh : t ≠ w.nextId)
    (hDur : 1000 / 60 < dur) (hDist : 5 < |max target 0 - el.scrollTop|) :
    ((smoothScrollTo w target dur).1.pending = [w.nextId]
      ∧ (smoothScrollTo w target dur).1.engine.animationId = some w.nextId
      ∧ t ∉ (smoothScrollTo w target dur).1.pending)
  ∧ ((continuousScroll w dir pps).1.pending = [w.nextId]
      ∧ (continuousScroll w dir pps).1.engine.animationId = some w.nextId
      ∧ t ∉ (continuousScroll w dir pps).1.pending) := by
  obtain ⟨⟨ae, aid, es⟩, pend, nid, wr⟩ := w
  dsimp only at hEl hId hP hFresh
  subst hEl
  subst hId
  subst hP
  have hc : ¬(dur ≤ 1000 / 60 ∨ |max target 0 - el.scrollTop| ≤ 5) := by
    push_neg
    exact ⟨hDur, hDist⟩
  simp [smoothScrollTo, continuousScroll, animatedScroll, stopAnimation,
    clearTimeout, setTimeout, hc, hFresh]

/-- Witness for C1 at a concrete world holding one live session timer. -/
theorem c1_witness :
    ((smoothScrollTo ⟨⟨some ⟨0, 1000⟩, some 0, ⟨1, 1⟩⟩, [0], 1, 0⟩ 100 1000).1.pending
        = [(⟨⟨some ⟨0, 1000⟩, some 0, ⟨1, 1⟩⟩, [0], 1, 0⟩ : World).nextId]
      ∧ (smoothScrollTo ⟨⟨some ⟨0, 1000⟩, some 0, ⟨1, 1⟩⟩, [0], 1, 0⟩ 100
            1000).1.engine.animationId
        = some (⟨⟨some ⟨0, 1000⟩, some 0, ⟨1, 1⟩⟩, [0], 1, 0⟩ : World).nextId
      ∧ 0 ∉ (smoothScrollTo ⟨⟨some ⟨0, 1000⟩, some 0, ⟨1, 1⟩⟩, [0], 1, 0⟩ 100 1000).1.pending)
  ∧ ((continuousScroll ⟨⟨some ⟨0, 1000⟩, some 0, ⟨1, 1⟩⟩, [0], 1, 0⟩ .down 100).1.pending
        = [(⟨⟨some ⟨0, 1000⟩, some 0, ⟨1, 1⟩⟩, [0], 1, 0⟩ : World).nextId]
      ∧ (continuousScroll ⟨⟨some ⟨0, 1000⟩, some 0, ⟨1, 1⟩⟩, [0], 1, 0⟩ .down
            100).1.engine.animationId
        = some (⟨⟨some ⟨0, 1000⟩, some 0, ⟨1, 1⟩⟩, [0], 1, 0⟩ : World).nextId
      ∧ 0 ∉ (continuousScroll ⟨⟨some ⟨0, 1000⟩, some 0, ⟨1, 1⟩⟩, [0], 1, 0⟩ .down
            100).1.pending) :=
  c1_start_cancels_previous ⟨⟨some ⟨0, 1000⟩, some 0, ⟨1, 1⟩⟩, [0], 1, 0⟩ ⟨0, 1000⟩ 0 100
    1000 100 .down rfl rfl rfl (by with_unfolding_all decide)
    (by with_unfolding_all decide) (by with_unfolding_all decide)

/-- Counterexample for C1 as stated: animatedScroll is an animation
primitive, yet starting it while a session timer is live does not cancel
that session: afterwards two timers are pending — the old session timer 0
is still live and can fire, so its suspension can still complete. -/
theorem c1_counterexample :
    (animatedScroll ⟨⟨some ⟨0, 1000⟩, some 0, ⟨1, 1⟩⟩, [0], 1, 0⟩ (1000 / 60) 10 0).1.pending
        = [0, 1]
  ∧ (animatedScroll ⟨⟨some ⟨0, 1000⟩, some 0, ⟨1, 1⟩⟩, [0], 1, 0⟩ (1000 / 60) 10
        0).1.pending.length ≠ 1
  ∧ 0 ∈ (animatedScroll ⟨⟨some ⟨0, 1000⟩, some 0, ⟨1, 1⟩⟩, [0], 1, 0⟩ (1000 / 60) 10
        0).1.pending := by
  with_unfolding_all decide

/-- C3 (amended): for a registered command id, a resolver that yields no
scrollable surface makes executeScroll throw BEFORE its try block, so the
error propagates out of executeCommand to its caller and no notice is
emitted; the catch boundary applies only to errors thrown by the strategy
itself, which are converted into exactly one user-visible notice and do
not propagate. -/
theorem c3_controller_fault_boundary (registry : String → Option StratFun)
    (w : World) (commandId : String) (strat : StratFun)
    (h : registry commandId = some strat) :
    executeCommand registry w commandId none
      = { world := w, notices := 0, thrown := some "No scrollable element found" }
  ∧ (∀ el w2 e, strat el (activate w el) = (w2, .error e) →
      executeCommand registry w commandId (some el)
        = { world := deactivate w2, notices := 1, thrown := none })
  ∧ (∀ el w2, strat el (activate w el) = (w2, .ok ()) →
      executeCommand registry w commandId (some el)
        = { world := deactivate w2, notices := 0, thrown := none }) := by
  refine ⟨by simp [executeCommand, h, executeScroll], ?_, ?_⟩
  · intro el w2 e hs
    simp [executeCommand, h, executeScroll, hs]
  · intro el w2 hs
    simp [executeCommand, h, executeScroll, hs]

/-- Witness for C3 at a concrete registry holding one command bound to a
strategy that always succeeds: with no resolvable surface the error is
thrown to the caller of executeCommand and no notice appears. -/
theorem c3_witness :
    executeCommand
        (fun commandId =>
          if commandId = "stomp-page-scroll-down" then some (fun _ v => (v, .ok ())) else none)
        ⟨⟨none, none, ⟨1, 1⟩⟩, [], 0, 0⟩ "stomp-page-scroll-down" none
      = { world := ⟨⟨none, none, ⟨1, 1⟩⟩, [], 0, 0⟩, notices := 0,
          thrown := some "No scrollable element found" } :=
  (c3_controller_fault_boundary
      (fun commandId =>
        if commandId = "stomp-page-scroll-down" then some (fun _ v => (v, .ok ())) else none)
      ⟨⟨none, none, ⟨1, 1⟩⟩, [], 0, 0⟩ "stomp-page-scroll-down" (fun _ v => (v, .ok ()))
      rfl).1

/-- Counterexample for C3 as stated: the claim requires the no-surface
failure to be caught and converted into a notice with executeCommand not
throwing, but the embedded controller rethrows it to the caller and emits
no notice. -/
theorem c3_counterexample :
    (executeCommand
        (fun commandId =>
          if commandId = "stomp-stop-scroll" then some (fun _ v => (v, .ok ())) else none)
        ⟨⟨none, none, ⟨1, 1⟩⟩, [], 0, 0⟩ "stomp-stop-scroll" none).thrown
      = some "No scrollable element found"
  ∧ (executeCommand
        (fun commandId =>
          if commandId = "stomp-stop-scroll" then some (fun _ v => (v, .ok ())) else none)
        ⟨⟨none, none, ⟨1, 1⟩⟩, [], 0, 0⟩ "stomp-stop-scroll" none).notices = 0 := by
  constructor <;> rfl

theorem easedRun_zero (p : EasedParams) (st : EasedState) :
    easedRun p st 0 = .running st := rfl

theorem easedRun_succ (p : EasedParams) (st : EasedState) (fuel : ℕ) :
    easedRun p st (fuel + 1)
      = match easedStep p st with
        | .finished s r => .finished s r
        | .running st' => easedRun p st' fuel := rfl

theorem easedStep_running_surf (p : EasedParams) (st st' : EasedState)
    (h : easedStep p st = .running st') :
    st' = ⟨directScrollWrite st.surf (easedPos p st.framesProcessed),
           st.framesProcessed + 1⟩ := by
  simp only [easedStep] at h
  split_ifs at h
  exact (StepOut.running.inj h).symm

/-- C6 (amended): an eased animation that runs out its frame count
(finishing with the completed reason, so without boundary termination)
ends with the surface offset equal to Math.ceil of the clamped target,
saturated at the maximum scroll extent of the surface — the final frame
force-writes the target through directScroll; whenever the requested
clamped target is an integer within the range of the surface, the final offset
is exactly that target. -/
theorem c6_eased_completion_offset (p : EasedParams) :
    ∀ (fuel : ℕ) (st : EasedState) (s : Surface),
      easedRun p st fuel = .finished s .completed →
      s.maxScroll = st.surf.maxScroll
      ∧ s.scrollTop
          = max 0 (min ((⌈max p.targetPosition 0⌉ : ℤ) : ℚ) st.surf.maxScroll)
      ∧ (∀ n : ℤ, p.targetPosition = (n : ℚ) → 0 ≤ n →
          (n : ℚ) ≤ st.surf.maxScroll → s.scrollTop = p.targetPosition) := by
  intro fuel
  induction fuel with
  | zero =>
    intro st s h
    simp [easedRun_zero] at h
  | succ fuel ih =>
    intro st s h
    rw [easedRun_succ] at h
    rcases hstep : easedStep p st with ⟨s', r'⟩ | st'
    · rw [hstep] at h
      obtain ⟨h1, h2⟩ := StepOut.finished.inj h
      have heq : easedStep p st = StepOut.finished s FinishReason.completed := by
        rw [hstep, h1, h2]
      simp only [easedStep] at heq
      split_ifs at heq with hb hf
      · exact absurd (StepOut.finished.inj heq).2 (by simp)
      · obtain ⟨hs, _⟩ := StepOut.finished.inj heq
        have hst : s.scrollTop
            = max 0 (min ((⌈max p.targetPosition 0⌉ : ℤ) : ℚ) st.surf.maxScroll) := by
          rw [← hs, directScrollWrite_scrollTop, directScrollWrite_maxScroll]
        refine ⟨by rw [← hs, directScrollWrite_maxScroll, directScrollWrite_maxScroll],
          hst, ?_⟩
        intro n hn h0 h1
        have h0q : (0 : ℚ) ≤ (n : ℚ) := by exact_mod_cast h0
        rw [hst, hn, max_eq_left h0q, Int.ceil_intCast, min_eq_left h1,
          max_eq_right h0q]
    · rw [hstep] at h
      obtain ⟨hmax, hTop, hInt⟩ := ih st' s h
      have hms : st'.surf.maxScroll = st.surf.maxScroll := by
        rw [easedStep_running_surf p st st' hstep]
        simp [directScrollWrite_maxScroll]
      refine ⟨hmax.trans hms, by rw [hTop, hms], ?_⟩
      intro n hn h0 h1
      exact hInt n hn h0 (by rw [hms]; exact h1)

/-- Witness for C6: a two-frame eased run with linear easing to the
integer target 10 on a surface with room completes with the offset
exactly 10. -/
theorem c6_witness :
    (Surface.mk 10 100).maxScroll = (Surface.mk 0 100).maxScroll
  ∧ (Surface.mk 10 100).scrollTop = (10 : ℚ) :=
  ⟨(c6_eased_completion_offset
      { startPosition := 0, targetPosition := 10, totalFrames := 2, easing := fun t => t }
      5 ⟨⟨0, 100⟩, 0⟩ ⟨10, 100⟩ (by with_unfolding_all decide)).1,
    (c6_eased_completion_offset
      { startPosition := 0, targetPosition := 10, totalFrames := 2, easing := fun t => t }
      5 ⟨⟨0, 100⟩, 0⟩ ⟨10, 100⟩ (by with_unfolding_all decide)).2.2 10
      (by with_unfolding_all decide) (by with_unfolding_all decide)
      (by with_unfolding_all decide)⟩

/-- Counterexample for C6 as stated: a completed eased run to the
non-integer clamped target 21/2 ends at 11 (the ceiling), not at the
requested clamped target. -/
theorem c6_counterexample :
    easedRun ⟨0, 21 / 2, 2, fun t => t⟩ ⟨⟨0, 100⟩, 0⟩ 5 = .finished ⟨11, 100⟩ .completed
  ∧ ((11 : ℚ) ≠ max (21 / 2) 0) := by
  with_unfolding_all decide

/-- C7: boundary termination.  In the linear stepper, a frame whose write
leaves the offset unchanged resolves the suspension in that same frame,
whatever pixel step and however many frames remain.  In the eased
stepper, boundary detection is gated on framesProcessed > 2; still, from
any state with at least 2 frames elapsed whose next two writes leave the
offset unchanged (a surface pinned at a content limit), the loop resolves
within one additional frame — at most two more callbacks run.  Both loops
finish through FinishReason values that the source maps to resolve();
there is no rejecting exit. -/
theorem c7_boundary_termination :
    (∀ (pixelsPerFrame : ℚ) (totalFrames : ℕ) (st : LinState),
        (directScrollWrite st.surf (st.currentPosition + pixelsPerFrame)).scrollTop
            = st.surf.scrollTop →
        linStep pixelsPerFrame totalFrames st
          = .finished (directScrollWrite st.surf (st.currentPosition + pixelsPerFrame))
              .stopped)
  ∧ (∀ (p : EasedParams) (st : EasedState),
        2 ≤ st.framesProcessed →
        (directScrollWrite st.surf (easedPos p st.framesProcessed)).scrollTop
            = st.surf.scrollTop →
        (directScrollWrite st.surf (easedPos p (st.framesProcessed + 1))).scrollTop
            = st.surf.scrollTop →
        ∃ s r, easedRun p st 2 = .finished s r) := by
  constructor
  · intro pixelsPerFrame totalFrames st hw
    simp [linStep, hw]
  · intro p st hk hw1 hw2
    rcases lt_or_eq_of_le hk with hk2 | hk2
    · refine ⟨directScrollWrite st.surf (easedPos p st.framesProcessed), .stopped, ?_⟩
      have hstep : easedStep p st
          = .finished (directScrollWrite st.surf (easedPos p st.framesProcessed)) .stopped := by
        simp [easedStep, hw1, hk2]
      rw [show (2 : ℕ) = 1 + 1 from rfl, easedRun_succ, hstep]
    · by_cases hf : p.totalFrames ≤ st.framesProcessed + 1
      · refine ⟨directScrollWrite
            (directScrollWrite st.surf (easedPos p st.framesProcessed)) p.targetPosition,
          .completed, ?_⟩
        have hstep : easedStep p st
            = .finished (directScrollWrite
                (directScrollWrite st.surf (easedPos p st.framesProcessed))
                p.targetPosition) .completed := by
          have hgate : ¬((directScrollWrite st.surf
              (easedPos p st.framesProcessed)).scrollTop = st.surf.scrollTop
                ∧ 2 < st.framesProcessed) := by
            intro hc
            exact absurd hc.2 (by omega)
          simp [easedStep, hgate, hf]
        rw [show (2 : ℕ) = 1 + 1 from rfl, easedRun_succ, hstep]
      · have hsurf : directScrollWrite st.surf (easedPos p st.framesProcessed) = st.surf := by
          ext
          · exact hw1
          · exact directScrollWrite_maxScroll st.surf (easedPos p st.framesProcessed)
        have hstep1 : easedStep p st
            = .running ⟨st.surf, st.framesProcessed + 1⟩ := by
          simp [easedStep, hf, hsurf]
          omega
        have hstep2 : easedStep p ⟨st.surf, st.framesProcessed + 1⟩
            = .finished (directScrollWrite st.surf (easedPos p (st.framesProcessed + 1)))
                .stopped := by
          have hk3 : 2 < st.framesProcessed + 1 := by omega
          simp [easedStep, hw2, hk3]
        refine ⟨directScrollWrite st.surf (easedPos p (st.framesProcessed + 1)),
          .stopped, ?_⟩
        rw [show (2 : ℕ) = 1 + 1 from rfl, easedRun_succ, hstep1]
        show easedRun p ⟨st.surf, st.framesProcessed + 1⟩ 1 = _
        rw [show (1 : ℕ) = 0 + 1 from rfl, easedRun_succ, hstep2]

/-- Witness for C7: a surface pinned at its content limit (maxScroll 0)
inside a ten-frame eased session with 2 frames elapsed resolves within
the next two callbacks. -/
theorem c7_witness :
    ∃ s r, easedRun ⟨0, 100, 10, fun t => t⟩ ⟨⟨0, 0⟩, 2⟩ 2 = StepOut.finished s r :=
  c7_boundary_termination.2 ⟨0, 100, 10, fun t => t⟩ ⟨⟨0, 0⟩, 2⟩
    (by with_unfolding_all decide) (by with_unfolding_all decide)
    (by with_unfolding_all decide)

/-- C8: for progress t in [0, 1] and nonnegative sharpness factors, the
combined easing function computes exactly the spec formula — half of the
ease-in curve of 2t below the midpoint, and above it 0.5 plus half of the
ease-out curve of 2(t - 0.5) — and a sharpness factor of 0 degenerates
that half (and the whole combined function) to linear. -/
theorem c8_easeInOut_refines_spec (t fIn fOut : ℝ)
    (ht0 : 0 ≤ t) (ht1 : t ≤ 1) (hIn : 0 ≤ fIn) (hOut : 0 ≤ fOut) :
    easeInOut t fIn fOut = specCombinedEase t fIn fOut
  ∧ easeIn t 0 = t
  ∧ easeOut t 0 = t
  ∧ easeInOut t 0 0 = t := by
  have hdegIn : easeIn t 0 = t := by simp [easeIn]
  have hdegOut : easeOut t 0 = t := by simp [easeOut]
  have hdegBoth : easeInOut t 0 0 = t := by simp [easeInOut]
  refine ⟨?_, hdegIn, hdegOut, hdegBoth⟩
  rcases eq_or_lt_of_le hIn with hIn0 | hInPos
  · rcases eq_or_lt_of_le hOut with hOut0 | hOutPos
    · -- both factors are 0: the source short-circuit returns t, and the
      -- spec formula degenerates to linear on both halves
      rw [← hIn0, ← hOut0, hdegBoth]
      unfold specCombinedEase
      split_ifs with ht
      · rw [show (1 : ℝ) + 2 * 0 = 1 by ring, Real.rpow_one]
        ring
      · rw [show (1 : ℝ) + 2 * 0 = 1 by ring, Real.rpow_one]
        ring
    · -- fIn = 0, fOut > 0
      rw [← hIn0]
      unfold easeInOut specCombinedEase
      rw [if_neg (by push_neg; intro _; exact hOutPos)]
      split_ifs with ht
      · rw [easeIn, if_pos le_rfl, show (1 : ℝ) + 2 * 0 = 1 by ring, Real.rpow_one]
        ring
      · rw [easeOut, if_neg (not_le.mpr hOutPos)]
        rw [show (t - 1 / 2) * 2 = 2 * (t - 1 / 2) by ring,
          show (1 : ℝ) + fOut * 2 = 1 + 2 * fOut by ring]
  · rcases eq_or_lt_of_le hOut with hOut0 | hOutPos
    · -- fIn > 0, fOut = 0
      rw [← hOut0]
      unfold easeInOut specCombinedEase
      rw [if_neg (by push_neg; exact fun h => absurd h (not_le.mpr hInPos))]
      split_ifs with ht
      · rw [easeIn, if_neg (not_le.mpr hInPos)]
        rw [show t * 2 = 2 * t by ring, show (1 : ℝ) + fIn * 2 = 1 + 2 * fIn by ring]
      · rw [easeOut, if_pos le_rfl, show (1 : ℝ) + 2 * 0 = 1 by ring, Real.rpow_one]
        ring
    · -- both factors positive
      unfold easeInOut specCombinedEase
      rw [if_neg (by push_neg; exact fun h => absurd h (not_le.mpr hInPos))]
      split_ifs with ht
      · rw [easeIn, if_neg (not_le.mpr hInPos)]
        rw [show t * 2 = 2 * t by ring, show (1 : ℝ) + fIn * 2 = 1 + 2 * fIn by ring]
      · rw [easeOut, if_neg (not_le.mpr hOutPos)]
        rw [show (t - 1 / 2) * 2 = 2 * (t - 1 / 2) by ring,
          show (1 : ℝ) + fOut * 2 = 1 + 2 * fOut by ring]

/-- Witness for C8 at t = 1/4 with both sharpness factors 0. -/
theorem c8_witness :
    easeInOut (1 / 4) 0 0 = specCombinedEase (1 / 4) 0 0
  ∧ easeIn (1 / 4) 0 = 1 / 4
  ∧ easeOut (1 / 4) 0 = 1 / 4
  ∧ easeInOut (1 / 4) 0 0 = 1 / 4 :=
  c8_easeInOut_refines_spec (1 / 4) 0 0 (by norm_num) (by norm_num) le_rfl le_rfl
